import Mathlib

/-!
Verification of the `logtar` handler core (`src/handler.go`).

The Go source defines a `Handler` interface with four operations
(`Handle`, `Filter`, `Emit`, `Close`) and three implementations:
`NullHandler`, `StreamHandler`, `FileHandler`.  We give a shallow
embedding: records, handler structs and the two default formatter
references are Lean structures mirroring the Go structs; the external
collaborators (the `Formatter.Format` function, `os.OpenFile`,
`os.File.Close`) are passed in as explicit environments; the observable
effect of an `Emit`/`Handle` call is a transformation of a `World`
recording the writes to the handler's sink, the writes to the process
standard-error stream, and the number of formatter invocations.

The mutex discipline of `Handle` is embedded separately as a small
two-thread interleaving machine (`Sched2` below), because the Go methods
take the receiver *by value*: calling `Handle` copies the whole struct,
`mu` included, so `self.mu.Lock()` operates on a per-call copy.
-/

namespace Logtar

/-- Modelled from the spec: the external `LogRecord` collaborator.  The
spec requires only that it exposes an ordered numeric `Level` comparable
with `<` plus whatever payload the formatter reads; Go's `Level` is an
`int`. -/
structure LogRecord where
  Level : Int
  Message : String
deriving DecidableEq, Repr

/-- References to formatter values.  `TerminalFormatter` and
`DefaultFormatter` are the two package-level formatter values named by
`NewStreamHandler` and `NewFileHandler` in `src/handler.go`; their
definitions live outside `src/`.  Modelled from the spec: they are
distinct formatter collaborators (a human-readable "terminal" formatter
and "a plain/default formatter distinct from the terminal one"). -/
inductive FormatterRef where
  | TerminalFormatter
  | DefaultFormatter
  | custom (id : Nat)
deriving DecidableEq, Repr

/-- Modelled from the spec: the Formatter collaborator contract
`Format(record) → (string, error)`.  An environment assigns to every
formatter reference its formatting function; `Option String` embeds
Go's `error` (`none` = `nil`). -/
structure FmtEnv where
  Format : FormatterRef → LogRecord → String × Option String

/-- References to writable streams (`io.Writer`).  `osStderr` is the
process standard error stream `os.Stderr`. -/
inductive Writer where
  | osStderr
  | osStdout
  | other (id : Nat)
deriving DecidableEq, Repr

/-- An opened OS file (`*os.File`), identified by its descriptor. -/
structure File where
  fd : Nat
deriving DecidableEq, Repr

/-- The observable effect state of one handler's emission path:
the sequence of writes to the handler's own sink (`self.Out`), the
sequence of diagnostic writes to the process standard error stream
(`os.Stderr`), and the number of `Formatter.Format` invocations.
Each `fmt.Fprintln` / `fmt.Fprintf` call is one element of the
corresponding list.  (When a StreamHandler's `Out` is `os.Stderr`
both sequences land on the same OS stream; no claim depends on their
relative interleaving.) -/
structure World where
  sink : List String
  stderr : List String
  fmtCalls : Nat
deriving DecidableEq, Repr

/-- The empty effect state. -/
def emptyWorld : World := { sink := [], stderr := [], fmtCalls := 0 }

/-- `type NullHandler struct { Name string }` -/
structure NullHandler where
  Name : String
deriving DecidableEq, Repr

/-- `func (self NullHandler) Handle(*LogRecord) { // do nothing }` -/
def NullHandler.Handle (_self : NullHandler) (_record : LogRecord) (w : World) : World :=
  w

/-- `func (self NullHandler) Filter(*LogRecord) bool { return true }` -/
def NullHandler.Filter (_self : NullHandler) (_record : LogRecord) : Bool :=
  true

/-- `func (self NullHandler) Emit(*LogRecord) { // do nothing }` -/
def NullHandler.Emit (_self : NullHandler) (_record : LogRecord) (w : World) : World :=
  w

/-- `func (self NullHandler) Close() error { return nil }` -/
def NullHandler.Close (_self : NullHandler) : Option String :=
  none

/-- `type StreamHandler struct { Out io.Writer; Formatter Formatter;
Name string; Level int; mu sync.Mutex }`.  The mutex is embedded as its
locked flag (`false` = unlocked, the Go zero value). -/
structure StreamHandler where
  Out : Writer
  Formatter : FormatterRef
  Name : String
  Level : Int
  mu : Bool
deriving DecidableEq, Repr

/-- `NewStreamHandler(name)`: composite literal with `Out: os.Stderr`,
`Formatter: TerminalFormatter`, `Level: 0`; `mu` is left at its zero
value (unlocked). -/
def NewStreamHandler (name : String) : StreamHandler :=
  { Name := name
  , Out := Writer.osStderr
  , Formatter := FormatterRef.TerminalFormatter
  , Level := 0
  , mu := false }

/-- `func (self StreamHandler) Emit(record *LogRecord)`:
`msg, err := self.Formatter.Format(record); if err != nil {
fmt.Fprintf(os.Stderr, "Format record failed, [%v]\n", err) };
fmt.Fprintln(self.Out, msg)`.  The diagnostic `Fprintf` goes to the
stderr channel, the `Fprintln` appends `msg ++ "\n"` to the sink. -/
def StreamHandler.Emit (env : FmtEnv) (self : StreamHandler) (record : LogRecord)
    (w : World) : World :=
  let msg := (env.Format self.Formatter record).1
  let err := (env.Format self.Formatter record).2
  { sink := w.sink ++ [msg ++ "\n"]
  , stderr := w.stderr ++
      (match err with
       | some e => ["Format record failed, [" ++ e ++ "]\n"]
       | none => [])
  , fmtCalls := w.fmtCalls + 1 }

/-- `func (self StreamHandler) Filter(record *LogRecord) bool {
if record.Level < self.Level { return true }; return false }` -/
def StreamHandler.Filter (self : StreamHandler) (record : LogRecord) : Bool :=
  if record.Level < self.Level then true else false

/-- `func (self StreamHandler) Handle(record *LogRecord)`: runs `Filter`;
if not filtered, takes `self.mu.Lock()`, defers the unlock, and calls
`self.Emit(record)`.  The receiver is a value, so the lock/unlock pair
acts on this call's private copy of `mu` and has no observable effect on
the sequential emission behaviour modelled here; the lock discipline
itself is embedded by the `Sched2` machine below. -/
def StreamHandler.Handle (env : FmtEnv) (self : StreamHandler) (record : LogRecord)
    (w : World) : World :=
  let filtered := self.Filter record
  if !filtered then self.Emit env record w else w

/-- `func (self StreamHandler) Close() error { return nil }` -/
def StreamHandler.Close (_self : StreamHandler) : Option String :=
  none

/-- `type FileHandler struct { Path string; Out *os.File; Name string;
Level int; Formatter Formatter; mu sync.Mutex }` -/
structure FileHandler where
  Path : String
  Out : File
  Name : String
  Level : Int
  Formatter : FormatterRef
  mu : Bool
deriving DecidableEq, Repr

/-- Go panic value: `NewFileHandler` calls
`panic(fmt.Errorf("can not open file %s", path))` on open failure. -/
structure GoPanic where
  message : String
deriving DecidableEq, Repr

/-- `os.O_WRONLY` (Linux value `0x1`). -/
def O_WRONLY : Nat := 1

/-- `os.O_APPEND` (Linux value `0x400`). -/
def O_APPEND : Nat := 1024

/-- `os.O_CREATE` (Linux value `0x40`). -/
def O_CREATE : Nat := 64

/-- The flags argument `os.O_WRONLY|os.O_APPEND|os.O_CREATE` of the
`os.OpenFile` call in `NewFileHandler`. -/
def openFlags : Nat := Nat.lor O_WRONLY (Nat.lor O_APPEND O_CREATE)

/-- The permission argument `0660` of the `os.OpenFile` call in
`NewFileHandler` (Go octal literal). -/
def openPerm : Nat := 0o660

/-- The operating-system interface consumed by the file handler:
`os.OpenFile(path, flags, perm)` returning a file or an error, and
`(*os.File).Close()` returning an error or `nil`. -/
structure OS where
  OpenFile : String → Nat → Nat → Except String File
  CloseFile : File → Option String

/-- `func NewFileHandler(name string, path string) *FileHandler`:
opens `path` with `os.O_WRONLY|os.O_APPEND|os.O_CREATE` and permission
`0660`; on error panics with `"can not open file %s"`; otherwise builds
the handler literal `{Name, Out, Path, Formatter: DefaultFormatter}` —
`Level` and `mu` are omitted in the Go literal and take their zero
values (`0`, unlocked). -/
def NewFileHandler (os : OS) (name : String) (path : String) :
    Except GoPanic FileHandler :=
  match os.OpenFile path openFlags openPerm with
  | Except.error _ => Except.error { message := "can not open file " ++ path }
  | Except.ok file =>
      Except.ok
        { Name := name
        , Out := file
        , Path := path
        , Formatter := FormatterRef.DefaultFormatter
        , Level := 0
        , mu := false }

/-- `func (self FileHandler) Emit(record *LogRecord)`: identical body to
`StreamHandler.Emit`, writing to the owned file. -/
def FileHandler.Emit (env : FmtEnv) (self : FileHandler) (record : LogRecord)
    (w : World) : World :=
  let msg := (env.Format self.Formatter record).1
  let err := (env.Format self.Formatter record).2
  { sink := w.sink ++ [msg ++ "\n"]
  , stderr := w.stderr ++
      (match err with
       | some e => ["Format record failed, [" ++ e ++ "]\n"]
       | none => [])
  , fmtCalls := w.fmtCalls + 1 }

/-- `func (self FileHandler) Filter(record *LogRecord) bool {
if record.Level < self.Level { return true }; return false }` -/
def FileHandler.Filter (self : FileHandler) (record : LogRecord) : Bool :=
  if record.Level < self.Level then true else false

/-- `func (self FileHandler) Handle(record *LogRecord)`: same shape as
`StreamHandler.Handle`. -/
def FileHandler.Handle (env : FmtEnv) (self : FileHandler) (record : LogRecord)
    (w : World) : World :=
  let filtered := self.Filter record
  if !filtered then self.Emit env record w else w

/-- `func (self FileHandler) Close() error { return self.Out.Close() }` -/
def FileHandler.Close (os : OS) (self : FileHandler) : Option String :=
  os.CloseFile self.Out

/-! ### The lock discipline of `Handle`

Go methods with a value receiver copy the receiver struct at the call:
`func (self StreamHandler) Handle(record *LogRecord)` makes `self` a
fresh copy of the handler, `mu` included.  `self.mu.Lock()` therefore
locks the copy's mutex, not the shared instance's.  The machine below
embeds two threads each executing one `Handle` call on the same shared
handler instance with an unsuppressed record, tracking the `mu` field of
the shared instance and of each call's private receiver copy. -/

/-- Program counter of one thread through `Handle` (unsuppressed
record). -/
inductive HandlePC where
  /-- the call has not yet been made (receiver not yet copied) -/
  | beforeCall
  /-- receiver copied, `Filter` returned `false`, about to `self.mu.Lock()` -/
  | beforeLock
  /-- `self.mu.Lock()` returned; executing `self.Emit(record)` -/
  | inEmit
  /-- `Emit` finished and the deferred `self.mu.Unlock()` ran -/
  | returned
deriving DecidableEq, Repr, Fintype

/-- One thread: its position in `Handle` plus the `mu` field of its
private receiver copy (meaningless before the copy is made). -/
structure Thread where
  pc : HandlePC
  copyMu : Bool
deriving DecidableEq, Repr, Fintype

/-- Two threads calling `Handle` concurrently on one shared handler
instance whose `mu` field is `instMu`. -/
structure Sched2 where
  instMu : Bool
  thr1 : Thread
  thr2 : Thread
deriving DecidableEq, Repr, Fintype

/-- One atomic step of a thread under Go value-receiver semantics.
`filtered` is the (pure) result of `Filter` on the record.  The call
step copies the shared receiver, so `copyMu` is initialised from
`instMu`; `Lock` blocks on, then sets, the copy's mutex; the `Emit`
step ends with the deferred `Unlock` of the copy.  No statement of the
method body writes through the shared instance, so `instMu` is returned
unchanged by every step. -/
def stepThread (filtered : Bool) (instMu : Bool) (t : Thread) : Bool × Thread :=
  match t.pc with
  | HandlePC.beforeCall =>
      if filtered then (instMu, { pc := HandlePC.returned, copyMu := instMu })
      else (instMu, { pc := HandlePC.beforeLock, copyMu := instMu })
  | HandlePC.beforeLock =>
      if t.copyMu then (instMu, t)
      else (instMu, { pc := HandlePC.inEmit, copyMu := true })
  | HandlePC.inEmit => (instMu, { pc := HandlePC.returned, copyMu := false })
  | HandlePC.returned => (instMu, t)

/-- Schedule one step: `true` advances thread 1, `false` thread 2. -/
def stepSched (filtered : Bool) (which : Bool) (s : Sched2) : Sched2 :=
  if which then
    let r := stepThread filtered s.instMu s.thr1
    { instMu := r.1, thr1 := r.2, thr2 := s.thr2 }
  else
    let r := stepThread filtered s.instMu s.thr2
    { instMu := r.1, thr1 := s.thr1, thr2 := r.2 }

/-- Run a finite schedule of thread choices. -/
def runSched (filtered : Bool) (sched : List Bool) (s : Sched2) : Sched2 :=
  match sched with
  | [] => s
  | w :: ws => runSched filtered ws (stepSched filtered w s)

/-- Initial state: the shared instance's mutex unlocked (its zero
value), both threads about to call `Handle`. -/
def initSched : Sched2 :=
  { instMu := false
  , thr1 := { pc := HandlePC.beforeCall, copyMu := false }
  , thr2 := { pc := HandlePC.beforeCall, copyMu := false } }

/-- For contrast: the step the spec describes, where `Lock`/`Unlock`
act on the shared instance's own mutex (pointer-receiver semantics). -/
def stepThreadPtr (filtered : Bool) (instMu : Bool) (t : Thread) : Bool × Thread :=
  match t.pc with
  | HandlePC.beforeCall =>
      if filtered then (instMu, { pc := HandlePC.returned, copyMu := instMu })
      else (instMu, { pc := HandlePC.beforeLock, copyMu := instMu })
  | HandlePC.beforeLock =>
      if instMu then (instMu, t)
      else (true, { pc := HandlePC.inEmit, copyMu := t.copyMu })
  | HandlePC.inEmit => (false, { pc := HandlePC.returned, copyMu := t.copyMu })
  | HandlePC.returned => (instMu, t)

/-- `n` successive `Handle` calls on the same stream handler and record,
threading the effect state. -/
def StreamHandler.iterHandle (env : FmtEnv) (self : StreamHandler) (record : LogRecord) :
    Nat → World → World
  | 0, w => w
  | n + 1, w => StreamHandler.iterHandle env self record n (self.Handle env record w)

/-- `n` successive `Handle` calls on the same file handler and record. -/
def FileHandler.iterHandle (env : FmtEnv) (self : FileHandler) (record : LogRecord) :
    Nat → World → World
  | 0, w => w
  | n + 1, w => FileHandler.iterHandle env self record n (self.Handle env record w)


/-! ### Sample environments and values used by witnesses -/

/-- A formatter environment whose formatters render the record's message
and never fail. -/
def env0 : FmtEnv := { Format := fun _ r => (r.Message, none) }

/-- A formatter environment whose formatters return the record's message
together with a non-nil error `"boom"`. -/
def envErr : FmtEnv := { Format := fun _ r => (r.Message, some "boom") }

/-- A record below the sample handlers' threshold. -/
def rLow : LogRecord := { Level := 1, Message := "hello" }

/-- A record at or above the sample handlers' threshold. -/
def rHigh : LogRecord := { Level := 5, Message := "hello" }

/-- A sample stream handler with threshold 2. -/
def hs2 : StreamHandler :=
  { Out := Writer.osStderr
  , Formatter := FormatterRef.TerminalFormatter
  , Name := "s"
  , Level := 2
  , mu := false }

/-- A sample file handler with threshold 2. -/
def hf2 : FileHandler :=
  { Path := "/tmp/x"
  , Out := { fd := 3 }
  , Name := "f"
  , Level := 2
  , Formatter := FormatterRef.DefaultFormatter
  , mu := false }

/-- An OS whose `OpenFile` always fails. -/
def osFail : OS :=
  { OpenFile := fun _ _ _ => Except.error "permission denied"
  , CloseFile := fun _ => none }

/-- An OS whose `OpenFile` always returns the file with descriptor 3. -/
def osOk : OS :=
  { OpenFile := fun _ _ _ => Except.ok { fd := 3 }
  , CloseFile := fun _ => none }

/-- Like `osOk` but with a failing `CloseFile`: it agrees with `osOk` on
every `OpenFile` call. -/
def osOk2 : OS :=
  { OpenFile := fun _ _ _ => Except.ok { fd := 3 }
  , CloseFile := fun _ => some "close failed" }

/-! ### Helper lemmas on the emission path -/

/-- On an unsuppressed record, `Handle` behaves as one `Emit`. -/
theorem streamHandle_unfiltered (env : FmtEnv) (self : StreamHandler)
    (record : LogRecord) (w : World) (h : ¬ record.Level < self.Level) :
    self.Handle env record w =
      { sink := w.sink ++ [(env.Format self.Formatter record).1 ++ "\n"]
      , stderr := w.stderr ++
          (match (env.Format self.Formatter record).2 with
           | some e => ["Format record failed, [" ++ e ++ "]\n"]
           | none => [])
      , fmtCalls := w.fmtCalls + 1 } := by
  simp [StreamHandler.Handle, StreamHandler.Filter, StreamHandler.Emit, h]

/-- On a suppressed record, `Handle` is the identity on the world. -/
theorem streamHandle_filtered (env : FmtEnv) (self : StreamHandler)
    (record : LogRecord) (w : World) (h : record.Level < self.Level) :
    self.Handle env record w = w := by
  simp [StreamHandler.Handle, StreamHandler.Filter, h]

/-- On an unsuppressed record, `Handle` behaves as one `Emit`. -/
theorem fileHandle_unfiltered (env : FmtEnv) (self : FileHandler)
    (record : LogRecord) (w : World) (h : ¬ record.Level < self.Level) :
    self.Handle env record w =
      { sink := w.sink ++ [(env.Format self.Formatter record).1 ++ "\n"]
      , stderr := w.stderr ++
          (match (env.Format self.Formatter record).2 with
           | some e => ["Format record failed, [" ++ e ++ "]\n"]
           | none => [])
      , fmtCalls := w.fmtCalls + 1 } := by
  simp [FileHandler.Handle, FileHandler.Filter, FileHandler.Emit, h]

/-- On a suppressed record, `Handle` is the identity on the world. -/
theorem fileHandle_filtered (env : FmtEnv) (self : FileHandler)
    (record : LogRecord) (w : World) (h : record.Level < self.Level) :
    self.Handle env record w = w := by
  simp [FileHandler.Handle, FileHandler.Filter, h]

/-! ### Claims -/

/-- Claim C2: for every record `r` and every handler with a severity
threshold (StreamHandler or FileHandler), `Filter` returns `true` if and
only if `r.Level < h.Level`. -/
theorem C2_filter_iff_level_below_threshold
    (s : StreamHandler) (f : FileHandler) (r : LogRecord) :
    (s.Filter r = true ↔ r.Level < s.Level) ∧
    (f.Filter r = true ↔ r.Level < f.Level) := by
  constructor
  · simp only [StreamHandler.Filter]
    split <;> simp_all
  · simp only [FileHandler.Filter]
    split <;> simp_all

/-- Claim C3: a `Handle` call on a StreamHandler or FileHandler with a
record strictly below the threshold leaves the world unchanged (no sink
write, no formatter invocation); with a record at or above the threshold
it invokes the formatter once and appends to the sink exactly one write,
the formatted string followed by a trailing newline. -/
theorem C3_handle_output (env : FmtEnv) (s : StreamHandler) (f : FileHandler)
    (r : LogRecord) (w : World) :
    (r.Level < s.Level → s.Handle env r w = w) ∧
    (¬ r.Level < s.Level →
       (s.Handle env r w).sink = w.sink ++ [(env.Format s.Formatter r).1 ++ "\n"] ∧
       (s.Handle env r w).fmtCalls = w.fmtCalls + 1) ∧
    (r.Level < f.Level → f.Handle env r w = w) ∧
    (¬ r.Level < f.Level →
       (f.Handle env r w).sink = w.sink ++ [(env.Format f.Formatter r).1 ++ "\n"] ∧
       (f.Handle env r w).fmtCalls = w.fmtCalls + 1) := by
  refine ⟨fun h => streamHandle_filtered env s r w h, fun h => ?_,
          fun h => fileHandle_filtered env f r w h, fun h => ?_⟩
  · rw [streamHandle_unfiltered env s r w h]
    exact ⟨rfl, rfl⟩
  · rw [fileHandle_unfiltered env f r w h]
    exact ⟨rfl, rfl⟩

/-- Witness for C3 at concrete inputs: the suppressed record writes
nothing; the unsuppressed one appends its formatted line. -/
theorem C3_handle_output_witness :
    (hs2.Handle env0 rLow emptyWorld = emptyWorld) ∧
    (hs2.Handle env0 rHigh emptyWorld).sink
      = emptyWorld.sink ++ [(env0.Format hs2.Formatter rHigh).1 ++ "\n"] ∧
    (hf2.Handle env0 rHigh emptyWorld).fmtCalls = emptyWorld.fmtCalls + 1 :=
  ⟨(C3_handle_output env0 hs2 hf2 rLow emptyWorld).1 (by decide),
   ((C3_handle_output env0 hs2 hf2 rHigh emptyWorld).2.1 (by decide)).1,
   ((C3_handle_output env0 hs2 hf2 rHigh emptyWorld).2.2.2 (by decide)).2⟩

/-- Claim C4: when the formatter returns a non-nil error, `Emit` reports
it on the standard-error diagnostic channel and still appends the
returned string (plus newline) to the primary sink; `Handle` on an
unsuppressed record is exactly that `Emit`, and neither returns an error
(both are `World → World` in the embedding, as the Go methods return
nothing). -/
theorem C4_format_error_not_propagated (env : FmtEnv) (s : StreamHandler)
    (f : FileHandler) (r : LogRecord) (w : World) (e : String) :
    ((env.Format s.Formatter r).2 = some e →
       (s.Emit env r w).stderr
         = w.stderr ++ ["Format record failed, [" ++ e ++ "]\n"] ∧
       (s.Emit env r w).sink = w.sink ++ [(env.Format s.Formatter r).1 ++ "\n"]) ∧
    (¬ r.Level < s.Level → s.Handle env r w = s.Emit env r w) ∧
    ((env.Format f.Formatter r).2 = some e →
       (f.Emit env r w).stderr
         = w.stderr ++ ["Format record failed, [" ++ e ++ "]\n"] ∧
       (f.Emit env r w).sink = w.sink ++ [(env.Format f.Formatter r).1 ++ "\n"]) ∧
    (¬ r.Level < f.Level → f.Handle env r w = f.Emit env r w) := by
  refine ⟨fun h => ?_, fun h => ?_, fun h => ?_, fun h => ?_⟩
  · constructor <;> simp [StreamHandler.Emit, h]
  · simp [StreamHandler.Handle, StreamHandler.Filter, h]
  · constructor <;> simp [FileHandler.Emit, h]
  · simp [FileHandler.Handle, FileHandler.Filter, h]

/-- Witness for C4 at concrete inputs: a failing formatter still yields
a sink line, and the error text lands on the diagnostic channel. -/
theorem C4_format_error_not_propagated_witness :
    (hs2.Emit envErr rHigh emptyWorld).stderr
      = emptyWorld.stderr ++ ["Format record failed, [" ++ "boom" ++ "]\n"] ∧
    (hf2.Emit envErr rHigh emptyWorld).sink
      = emptyWorld.sink ++ [(envErr.Format hf2.Formatter rHigh).1 ++ "\n"] ∧
    hs2.Handle envErr rHigh emptyWorld = hs2.Emit envErr rHigh emptyWorld :=
  ⟨((C4_format_error_not_propagated envErr hs2 hf2 rHigh emptyWorld "boom").1 rfl).1,
   ((C4_format_error_not_propagated envErr hs2 hf2 rHigh emptyWorld "boom").2.2.1 rfl).2,
   (C4_format_error_not_propagated envErr hs2 hf2 rHigh emptyWorld "boom").2.1 (by decide)⟩

/-- Claim C5: `NullHandler.Handle` performs no sink write and no
formatter invocation (the world is unchanged), `NullHandler.Filter`
always returns `true`, and `NullHandler.Emit` is a no-op. -/
theorem C5_null_handler_noop (n : NullHandler) (r : LogRecord) (w : World) :
    n.Handle r w = w ∧ n.Filter r = true ∧ n.Emit r w = w :=
  ⟨rfl, rfl, rfl⟩

/-- Claim C8: `StreamHandler.Close` and `NullHandler.Close` are no-ops
returning `nil`; `FileHandler.Close` returns exactly the result of
closing its owned file, with no retry. -/
theorem C8_close_semantics (os : OS) (s : StreamHandler) (n : NullHandler)
    (f : FileHandler) :
    s.Close = none ∧ n.Close = none ∧ f.Close os = os.CloseFile f.Out :=
  ⟨rfl, rfl, rfl⟩

/-- Claim C6: if `os.OpenFile` fails, `NewFileHandler` does not return a
handler — it panics (embedded as the `GoPanic` error) with the message
`"can not open file %s"`; if the open succeeds, construction returns the
handler and cannot fail.  (`NewStreamHandler` and `NullHandler`'s plain
struct literal are total functions in the embedding, mirroring that
those constructors cannot fail.) -/
theorem C6_construction_failure_policy (os : OS) (name path : String) :
    (∀ e, os.OpenFile path openFlags openPerm = Except.error e →
       NewFileHandler os name path
         = Except.error { message := "can not open file " ++ path }) ∧
    (∀ file, os.OpenFile path openFlags openPerm = Except.ok file →
       NewFileHandler os name path
         = Except.ok
             { Name := name
             , Out := file
             , Path := path
             , Formatter := FormatterRef.DefaultFormatter
             , Level := 0
             , mu := false }) := by
  constructor <;> intro x h <;> simp [NewFileHandler, h]

/-- Witness for C6 at concrete OS environments: a failing open panics,
a succeeding open yields the handler. -/
theorem C6_construction_failure_policy_witness :
    NewFileHandler osFail "h" "/no/dir/x"
      = Except.error { message := "can not open file " ++ "/no/dir/x" } ∧
    NewFileHandler osOk "h" "/tmp/x"
      = Except.ok
          { Name := "h"
          , Out := { fd := 3 }
          , Path := "/tmp/x"
          , Formatter := FormatterRef.DefaultFormatter
          , Level := 0
          , mu := false } :=
  ⟨(C6_construction_failure_policy osFail "h" "/no/dir/x").1 "permission denied" rfl,
   (C6_construction_failure_policy osOk "h" "/tmp/x").2 { fd := 3 } rfl⟩

/-- Claim C7: the `os.OpenFile` call of `NewFileHandler` uses exactly the
flags `O_WRONLY|O_APPEND|O_CREATE` (write-only bit set, read-write bit
clear, append and create bits set, nothing else: the word is
`1 + 64 + 1024`) and the permission `0660` (owner read/write, group
read/write, no execute anywhere, no access for others); `NewFileHandler`
consults the OS only through that one call. -/
theorem C7_open_flags_and_perm :
    openFlags = Nat.lor O_WRONLY (Nat.lor O_APPEND O_CREATE) ∧
    openFlags = 1 + 64 + 1024 ∧
    openFlags.testBit 0 = true ∧
    openFlags.testBit 1 = false ∧
    openFlags.testBit 6 = true ∧
    openFlags.testBit 10 = true ∧
    openPerm = 0o660 ∧
    openPerm / 64 % 8 = 6 ∧
    openPerm / 8 % 8 = 6 ∧
    openPerm % 8 = 0 ∧
    (∀ (os1 os2 : OS) (name path : String),
       os1.OpenFile path openFlags openPerm = os2.OpenFile path openFlags openPerm →
       NewFileHandler os1 name path = NewFileHandler os2 name path) := by
  refine ⟨rfl, by decide, by decide, by decide, by decide, by decide,
          rfl, by decide, by decide, by decide, ?_⟩
  intro os1 os2 name path h
  simp [NewFileHandler, h]

/-- Witness for C7: two OS environments that agree on the one `OpenFile`
call (but differ on `CloseFile`) produce the same constructed handler. -/
theorem C7_open_flags_and_perm_witness :
    NewFileHandler osOk "h" "/tmp/x" = NewFileHandler osOk2 "h" "/tmp/x" :=
  C7_open_flags_and_perm.2.2.2.2.2.2.2.2.2.2 osOk osOk2 "h" "/tmp/x" rfl

/-- Claim C9: `NewStreamHandler` returns a handler with threshold 0, the
process standard error stream as sink, and the terminal formatter;
`NewFileHandler` (on a successful open) returns a handler with threshold
0 and the default formatter, which is distinct from the terminal one. -/
theorem C9_constructor_defaults (os : OS) (name path : String) :
    (NewStreamHandler name).Level = 0 ∧
    (NewStreamHandler name).Out = Writer.osStderr ∧
    (NewStreamHandler name).Formatter = FormatterRef.TerminalFormatter ∧
    (∀ file, os.OpenFile path openFlags openPerm = Except.ok file →
       ∃ h, NewFileHandler os name path = Except.ok h ∧
            h.Level = 0 ∧ h.Formatter = FormatterRef.DefaultFormatter) ∧
    FormatterRef.TerminalFormatter ≠ FormatterRef.DefaultFormatter := by
  refine ⟨rfl, rfl, rfl, fun file h => ?_, by decide⟩
  refine ⟨{ Name := name
          , Out := file
          , Path := path
          , Formatter := FormatterRef.DefaultFormatter
          , Level := 0
          , mu := false }, ?_, rfl, rfl⟩
  simp [NewFileHandler, h]

/-- Witness for C9: the file-handler defaults at a concrete successful
open. -/
theorem C9_constructor_defaults_witness :
    ∃ h, NewFileHandler osOk "f" "/tmp/x" = Except.ok h ∧
         h.Level = 0 ∧ h.Formatter = FormatterRef.DefaultFormatter :=
  (C9_constructor_defaults osOk "f" "/tmp/x").2.2.2.1 { fd := 3 } rfl

/-- On an unsuppressed record, `n` iterated `Handle` calls on a stream
handler append `n` copies of the formatted line to the sink. -/
theorem streamIterHandle_sink (env : FmtEnv) (self : StreamHandler)
    (record : LogRecord) (h : ¬ record.Level < self.Level) :
    ∀ (n : Nat) (w : World),
      (self.iterHandle env record n w).sink
        = w.sink ++ List.replicate n ((env.Format self.Formatter record).1 ++ "\n") := by
  intro n
  induction n with
  | zero => intro w; simp [StreamHandler.iterHandle]
  | succ k ih =>
      intro w
      rw [StreamHandler.iterHandle, ih, streamHandle_unfiltered env self record w h]
      simp [List.replicate_succ]

/-- On an unsuppressed record, `n` iterated `Handle` calls on a file
handler append `n` copies of the formatted line to the sink. -/
theorem fileIterHandle_sink (env : FmtEnv) (self : FileHandler)
    (record : LogRecord) (h : ¬ record.Level < self.Level) :
    ∀ (n : Nat) (w : World),
      (self.iterHandle env record n w).sink
        = w.sink ++ List.replicate n ((env.Format self.Formatter record).1 ++ "\n") := by
  intro n
  induction n with
  | zero => intro w; simp [FileHandler.iterHandle]
  | succ k ih =>
      intro w
      rw [FileHandler.iterHandle, ih, fileHandle_unfiltered env self record w h]
      simp [List.replicate_succ]

/-- Claim C10: `Handle`, `Filter` and `Emit` are pure in the record and
the shared handler — in this embedding they are functions of the handler
and record values, which are never returned modified, mirroring the Go
bodies, which contain no assignment through the record pointer and (by
the value receivers) no write to any field of the shared instance (see
also the `Sched2` theorem: `instMu` is untouched).  Repeated `Handle`
calls with the same unsuppressed record are therefore not idempotent on
the sink: `n` calls append exactly `n` identical formatted lines, while
a suppressed record leaves the world untouched for any `n`. -/
theorem C10_handle_repeat_frame (env : FmtEnv) (s : StreamHandler)
    (f : FileHandler) (r : LogRecord) (w : World) (n : Nat) :
    (¬ r.Level < s.Level →
       (s.iterHandle env r n w).sink
         = w.sink ++ List.replicate n ((env.Format s.Formatter r).1 ++ "\n")) ∧
    (r.Level < s.Level → s.iterHandle env r n w = w) ∧
    (¬ r.Level < f.Level →
       (f.iterHandle env r n w).sink
         = w.sink ++ List.replicate n ((env.Format f.Formatter r).1 ++ "\n")) ∧
    (r.Level < f.Level → f.iterHandle env r n w = w) := by
  refine ⟨fun h => streamIterHandle_sink env s r h n w, fun h => ?_,
          fun h => fileIterHandle_sink env f r h n w, fun h => ?_⟩
  · induction n with
    | zero => rfl
    | succ k ih =>
        rw [StreamHandler.iterHandle, streamHandle_filtered env s r w h]
        exact ih
  · induction n with
    | zero => rfl
    | succ k ih =>
        rw [FileHandler.iterHandle, fileHandle_filtered env f r w h]
        exact ih

/-- Witness for C10: three `Handle` calls with an unsuppressed record
append three lines; three calls with a suppressed record append none. -/
theorem C10_handle_repeat_frame_witness :
    (hs2.iterHandle env0 rHigh 3 emptyWorld).sink
      = emptyWorld.sink
          ++ List.replicate 3 ((env0.Format hs2.Formatter rHigh).1 ++ "\n") ∧
    hf2.iterHandle env0 rLow 3 emptyWorld = emptyWorld :=
  ⟨(C10_handle_repeat_frame env0 hs2 hf2 rHigh emptyWorld 3).1 (by decide),
   (C10_handle_repeat_frame env0 hs2 hf2 rLow emptyWorld 3).2.2.2 (by decide)⟩

/-- Schedule one step of the intended pointer-receiver machine. -/
def stepSchedPtr (filtered : Bool) (which : Bool) (s : Sched2) : Sched2 :=
  if which then
    let r := stepThreadPtr filtered s.instMu s.thr1
    { instMu := r.1, thr1 := r.2, thr2 := s.thr2 }
  else
    let r := stepThreadPtr filtered s.instMu s.thr2
    { instMu := r.1, thr1 := s.thr1, thr2 := r.2 }

/-- Run a finite schedule of the pointer-receiver machine. -/
def runSchedPtr (filtered : Bool) (sched : List Bool) (s : Sched2) : Sched2 :=
  match sched with
  | [] => s
  | w :: ws => runSchedPtr filtered ws (stepSchedPtr filtered w s)

/-- Mutual-exclusion invariant of the pointer-receiver machine: a thread
inside `Emit` holds the instance mutex, and at most one thread is inside
`Emit`. -/
def ptrInv (s : Sched2) : Prop :=
  ((s.thr1.pc = HandlePC.inEmit ∨ s.thr2.pc = HandlePC.inEmit) → s.instMu = true) ∧
  ¬(s.thr1.pc = HandlePC.inEmit ∧ s.thr2.pc = HandlePC.inEmit)

instance : DecidablePred ptrInv := fun s => by
  unfold ptrInv
  infer_instance

set_option maxRecDepth 10000 in
/-- Had `Handle` taken the receiver by pointer, the lock on the shared
instance would serialize the two `Emit` calls: no schedule reaches a
state with both threads inside `Emit`. -/
theorem pointer_receiver_serializes (filtered : Bool) (sched : List Bool) :
    ¬((runSchedPtr filtered sched initSched).thr1.pc = HandlePC.inEmit ∧
      (runSchedPtr filtered sched initSched).thr2.pc = HandlePC.inEmit) := by
  have hstep : ∀ (f w : Bool) (s : Sched2), ptrInv s → ptrInv (stepSchedPtr f w s) := by
    decide
  have hrun : ∀ (sch : List Bool) (s : Sched2), ptrInv s → ptrInv (runSchedPtr filtered sch s) := by
    intro sch
    induction sch with
    | nil => intro s hs; exact hs
    | cons w ws ih => intro s hs; exact ih _ (hstep filtered w s hs)
  exact (hrun sched initSched (by decide)).2

set_option maxRecDepth 10000 in
/-- Claim C1: the claim fails on the code.  Go value receivers copy the
handler — `mu` included — at every `Handle` call, so `self.mu.Lock()`
locks a per-call private copy.  Formally: (1) under every schedule of two
concurrent `Handle` calls, the shared instance's mutex is never acquired
(it stays unlocked); (2) the schedule in which both threads copy the
receiver and then both lock their private copies drives both threads
into `Emit` simultaneously — the writes to the one handler's sink are
not serialized. -/
theorem C1_value_receiver_defeats_mutex :
    (∀ sched : List Bool, (runSched false sched initSched).instMu = false) ∧
    (runSched false [true, false, true, false] initSched).thr1.pc = HandlePC.inEmit ∧
    (runSched false [true, false, true, false] initSched).thr2.pc = HandlePC.inEmit := by
  refine ⟨?_, by decide, by decide⟩
  have hstep : ∀ (w : Bool) (s : Sched2), (stepSched false w s).instMu = s.instMu := by
    decide
  have hrun : ∀ (sch : List Bool) (s : Sched2),
      (runSched false sch s).instMu = s.instMu := by
    intro sch
    induction sch with
    | nil => intro s; rfl
    | cons w ws ih => intro s; rw [runSched, ih, hstep]
  intro sched
  exact hrun sched initSched

end Logtar
